import Mathlib

/-!
Shallow embedding of the todo-list cache layer of darron08/todolist-demo:
the key space, scorer, pipeline write protocol, read paths, distributed
lock, pattern deletion and request coalescing, together with theorems
checking the natural-language specification against the code.

Sources embedded:
  internal/infrastructure/cache/cache_utils.go
  internal/infrastructure/cache/todo_cache.go
  internal/infrastructure/cache/lock.go
  internal/infrastructure/database/redis/connection.go
-/

namespace TodoDemo

set_option maxRecDepth 8192

/-- Todo entity (internal/domain/entity/todo.go, the int64-keyed variant used
by the cache layer). `time.Time` values are represented by their unix seconds,
which is the only view the cache layer uses (`.Unix()`); `DueDate *time.Time`
becomes `Option Int`. `TodoStatus` and `TodoPriority` are Go string types. -/
structure Todo where
  id : Int
  userID : Int
  title : String
  description : String
  dueDate : Option Int
  status : String
  priority : String
  createdAt : Int
  updatedAt : Int
deriving DecidableEq, Repr

/-- ListFilter (cache_utils.go). Go pointer fields become `Option`. -/
structure ListFilter where
  status : Option String
  priority : Option String
  search : String
  dueDateFrom : Option Int
  dueDateTo : Option Int
deriving DecidableEq, Repr

/-! Key prefix constants (cache_utils.go). -/

def TodoHashKeyPrefix : String := "cache:todo:"
def TodoSortedSetPrefix : String := "cache:todos:user:"
def TodoQueryCachePrefix : String := "cache:todos:user:"
def QueryCacheSuffix : String := ":query:"
def LockKeyPrefix : String := "lock:"

/-- BuildSortedSetKey (cache_utils.go). The Go argument `filters *ListFilter`
becomes `Option ListFilter`. -/
def BuildSortedSetKey (userID : Int) (filters : Option ListFilter)
    (sortBy sortOrder : String) : String :=
  let base := TodoSortedSetPrefix ++ toString userID ++ ":sorted:"
  let base :=
    match filters with
    | none => base
    | some f =>
      let base :=
        match f.status with
        | some s => base ++ "status:" ++ s ++ ":"
        | none => base
      match f.priority with
      | some p => base ++ "priority:" ++ p ++ ":"
      | none => base
  base ++ sortBy ++ ":" ++ sortOrder

/-- BuildTodoHashKey (cache_utils.go). -/
def BuildTodoHashKey (todoID : Int) : String :=
  TodoHashKeyPrefix ++ toString todoID

/-- BuildLockKey (cache_utils.go). -/
def BuildLockKey (resource : String) : String :=
  LockKeyPrefix ++ resource

/-- GetAllSortedSetKeys (cache_utils.go). -/
def GetAllSortedSetKeys (userID : Int) : List String :=
  let base := TodoSortedSetPrefix ++ toString userID ++ ":sorted:"
  [ base ++ "due_date:asc",
    base ++ "due_date:desc",
    base ++ "created_at:desc",
    base ++ "title:asc",
    base ++ "status:not_started:due_date:asc",
    base ++ "status:in_progress:due_date:asc",
    base ++ "status:completed:due_date:asc",
    base ++ "priority:high:due_date:asc" ]

/-- BuildStatusChangeKeys (cache_utils.go). -/
def BuildStatusChangeKeys (userID : Int) (oldStatus newStatus : String) : List String :=
  let oldKey := TodoSortedSetPrefix ++ toString userID ++ ":sorted:status:" ++
    oldStatus ++ ":due_date:asc"
  let newKey := TodoSortedSetPrefix ++ toString userID ++ ":sorted:status:" ++
    newStatus ++ ":due_date:asc"
  [oldKey, newKey]

/-! Scorer (cache_utils.go). Scores are float64 in Go; every score the code
produces is either `±Inf` or an exactly representable integer (unix seconds,
their negations, or a 32-bit hash), so the score domain is embedded as an
extended integer. -/

/-- The value domain of sorted-set scores: `-Inf`, an exact integer, `+Inf`. -/
inductive Score where
  | negInf
  | num (v : Int)
  | posInf
deriving DecidableEq, Repr

/-- UTF-8 encoding of one unicode code point, byte values as `Nat`
(Go `[]byte(title)`). -/
def utf8EncodeCharNat (c : Nat) : List Nat :=
  if c < 128 then [c]
  else if c < 2048 then
    [192 ||| (c >>> 6), 128 ||| (c &&& 63)]
  else if c < 65536 then
    [224 ||| (c >>> 12), 128 ||| ((c >>> 6) &&& 63), 128 ||| (c &&& 63)]
  else
    [240 ||| (c >>> 18), 128 ||| ((c >>> 12) &&& 63),
     128 ||| ((c >>> 6) &&& 63), 128 ||| (c &&& 63)]

/-- The UTF-8 bytes of a string, as `Nat`s. -/
def utf8Bytes (s : String) : List Nat :=
  s.data.flatMap (fun c => utf8EncodeCharNat c.toNat)

/-- One step of FNV-1a (32 bit): xor the byte, multiply by the FNV prime,
in uint32 arithmetic (hash/fnv `New32a().Write`). -/
def fnv32aStep (h b : Nat) : Nat :=
  ((h ^^^ b) * 16777619) % 4294967296

/-- FNV-1a 32-bit hash of a byte sequence, offset basis 2166136261. -/
def fnv32a (bytes : List Nat) : Nat :=
  bytes.foldl fnv32aStep 2166136261

/-- getTitleScore (cache_utils.go): FNV-32a hash of the title as a score. -/
def getTitleScore (title : String) : Score :=
  Score.num (Int.ofNat (fnv32a (utf8Bytes title)))

/-- getDueDateScore (cache_utils.go). -/
def getDueDateScore (dueDate : Option Int) (sortOrder : String) : Score :=
  match dueDate with
  | none => if sortOrder = "desc" then Score.negInf else Score.posInf
  | some timestamp =>
    if sortOrder = "desc" then Score.num (-timestamp) else Score.num timestamp

/-- getCreatedAtScore (cache_utils.go). -/
def getCreatedAtScore (createdAt : Int) (sortOrder : String) : Score :=
  if sortOrder = "desc" then Score.num (-createdAt) else Score.num createdAt

/-- GetTodoScore (cache_utils.go). -/
def GetTodoScore (todo : Todo) (sortBy sortOrder : String) : Score :=
  if sortBy = "due_date" then getDueDateScore todo.dueDate sortOrder
  else if sortBy = "created_at" then getCreatedAtScore todo.createdAt sortOrder
  else if sortBy = "title" then getTitleScore todo.title
  else getCreatedAtScore todo.createdAt "desc"

/-- ShouldUseSortedSet (cache_utils.go). -/
def ShouldUseSortedSet (filters : Option ListFilter) (sortBy : String) : Bool :=
  let complexBlocked :=
    match filters with
    | none => false
    | some f =>
      (f.dueDateFrom.isSome || f.dueDateTo.isSome) ||
      (f.search ≠ "") ||
      (f.status.isSome && f.priority.isSome)
  if complexBlocked then false
  else sortBy = "due_date" || sortBy = "created_at" || sortBy = "title"

/-- BuildPipelineTodoHash (cache_utils.go): the HSET field map of the
PointRecord, as (field, value) pairs; integer values are HSET as their
decimal strings. `description` is set only when non-empty, `due_date`
only when present. -/
def BuildPipelineTodoHash (todo : Todo) : List (String × String) :=
  let fields := [("id", toString todo.id),
                 ("user_id", toString todo.userID),
                 ("title", todo.title),
                 ("status", todo.status),
                 ("priority", todo.priority),
                 ("created_at", toString todo.createdAt),
                 ("updated_at", toString todo.updatedAt)]
  let fields := if todo.description ≠ "" then
      fields ++ [("description", todo.description)]
    else fields
  match todo.dueDate with
  | some d => fields ++ [("due_date", toString d)]
  | none => fields

/-! Redis pipeline command model. The pipelines built by todo_cache.go use
HSET (full field map or a single field), DEL, EXPIRE, ZREM and ZADD; a
pipeline executes its commands in order. EXPIRE is kept in the trace for
fidelity but does not change the value state (TTLs are not modelled as
wall-clock time). -/

/-- Which configured TTL an EXPIRE applies (todo_cache.go fields hashTTL,
sortedSetTTL, queryCacheTTL). -/
inductive TTL where
  | hashTTL
  | sortedSetTTL
deriving DecidableEq, Repr

inductive RCmd where
  | hsetAll (key : String) (fields : List (String × String))
  | hsetField (key field value : String)
  | del (key : String)
  | expire (key : String) (ttl : TTL)
  | zrem (key : String) (member : Int)
  | zadd (key : String) (score : Score) (member : Int)
deriving DecidableEq, Repr

/-- A Redis value: a string, a hash, or a sorted set (member id with score). -/
inductive RVal where
  | str (s : String)
  | hash (fields : List (String × String))
  | zset (members : List (Int × Score))
deriving DecidableEq, Repr

/-- The Redis keyspace. -/
def RedisState := String → Option RVal

/-- HSET one field of a hash. -/
def hashSet (old : List (String × String)) (field value : String) :
    List (String × String) :=
  if old.any (fun p => p.1 = field) then
    old.map (fun p => if p.1 = field then (field, value) else p)
  else old ++ [(field, value)]

/-- HSET a whole field map. -/
def hashSetAll (old fields : List (String × String)) : List (String × String) :=
  fields.foldl (fun acc p => hashSet acc p.1 p.2) old

/-- ZREM a member. -/
def zsetRem (ms : List (Int × Score)) (member : Int) : List (Int × Score) :=
  ms.filter (fun p => p.1 ≠ member)

/-- ZADD a member with a score (updates the score if present). -/
def zsetAdd (ms : List (Int × Score)) (member : Int) (score : Score) :
    List (Int × Score) :=
  zsetRem ms member ++ [(member, score)]

/-- Effect of one command on the keyspace. A ZREM that empties a sorted set
removes the key, as in Redis. -/
def applyCmd (st : RedisState) (c : RCmd) : RedisState :=
  match c with
  | .hsetAll key fields =>
    let old := match st key with | some (.hash h) => h | _ => []
    fun k => if k = key then some (.hash (hashSetAll old fields)) else st k
  | .hsetField key f v =>
    let old := match st key with | some (.hash h) => h | _ => []
    fun k => if k = key then some (.hash (hashSet old f v)) else st k
  | .del key =>
    fun k => if k = key then none else st k
  | .expire _ _ => st
  | .zrem key m =>
    match st key with
    | some (.zset ms) =>
      let ms2 := zsetRem ms m
      fun k => if k = key then (if ms2 = [] then none else some (.zset ms2)) else st k
    | _ => st
  | .zadd key s m =>
    let old := match st key with | some (.zset ms) => ms | _ => []
    fun k => if k = key then some (.zset (zsetAdd old m s)) else st k

/-- Execute a pipeline: commands apply in order. -/
def applyCmds (st : RedisState) (cs : List RCmd) : RedisState :=
  cs.foldl applyCmd st

/-- The empty keyspace. -/
def emptyRedis : RedisState := fun _ => none

/-- ZSCORE non-nil test: is `member` in the sorted set at `key`? -/
def zsetContains (st : RedisState) (key : String) (member : Int) : Bool :=
  match st key with
  | some (.zset ms) => ms.any (fun p => p.1 = member)
  | _ => false

/-! Write-path pipelines (todo_cache.go). Each definition mirrors a Go method
that appends commands to the shared pipeline. The store is a parameter
`find : Int → Option Todo` standing for `todoRepo.FindByID` (`none` = the
call returned an error). -/

/-- The eight sorted-set configurations of updateSortedSetsWithPipeline. -/
def sortedSetConfigs : List (Option ListFilter × String × String) :=
  [ (none, "due_date", "asc"),
    (none, "due_date", "desc"),
    (none, "created_at", "desc"),
    (none, "title", "asc"),
    (some ⟨some "not_started", none, "", none, none⟩, "due_date", "asc"),
    (some ⟨some "in_progress", none, "", none, none⟩, "due_date", "asc"),
    (some ⟨some "completed", none, "", none, none⟩, "due_date", "asc"),
    (some ⟨none, some "high", "", none, none⟩, "due_date", "asc") ]

/-- updateSortedSetsWithPipeline (todo_cache.go): for each of the eight
configurations, ZREM the id, ZADD it back with the recomputed score, EXPIRE. -/
def updateSortedSetsCmds (todo : Todo) : List RCmd :=
  sortedSetConfigs.flatMap (fun cfg =>
    let key := BuildSortedSetKey todo.userID cfg.1 cfg.2.1 cfg.2.2
    [ RCmd.zrem key todo.id,
      RCmd.zadd key (GetTodoScore todo cfg.2.1 cfg.2.2) todo.id,
      RCmd.expire key TTL.sortedSetTTL ])

/-- handleStatusChangeWithPipeline (todo_cache.go): ZREM from the old status
index; if the inner `FindByID` succeeds, ZADD to the new status index with the
(due_date, asc) score and EXPIRE it. `findRes` is that inner lookup's result. -/
def handleStatusChangeCmds (todoID userID : Int) (oldStatus newStatus : String)
    (findRes : Option Todo) : List RCmd :=
  let keys := BuildStatusChangeKeys userID oldStatus newStatus
  let remCmds := if keys.length > 0 then [RCmd.zrem (keys.getD 0 "") todoID] else []
  let addCmds :=
    if keys.length > 1 then
      match findRes with
      | some todoInfo =>
        [ RCmd.zadd (keys.getD 1 "") (GetTodoScore todoInfo "due_date" "asc") todoID,
          RCmd.expire (keys.getD 1 "") TTL.sortedSetTTL ]
      | none => []
    else []
  remCmds ++ addCmds

/-- The pipeline CreateTodo builds: HSET + EXPIRE the PointRecord, then
update all eight sorted sets. -/
def createTodoPipeline (todo : Todo) : List RCmd :=
  [ RCmd.hsetAll (BuildTodoHashKey todo.id) (BuildPipelineTodoHash todo),
    RCmd.expire (BuildTodoHashKey todo.id) TTL.hashTTL ]
  ++ updateSortedSetsCmds todo

/-- The pipeline UpdateTodo builds, given the prior todo read from the store:
HSET + EXPIRE the PointRecord, update all eight sorted sets, then the status
move when the status changed (whose inner lookup is `find todo.id`). -/
def updateTodoPipeline (find : Int → Option Todo) (todo oldTodo : Todo) : List RCmd :=
  [ RCmd.hsetAll (BuildTodoHashKey todo.id) (BuildPipelineTodoHash todo),
    RCmd.expire (BuildTodoHashKey todo.id) TTL.hashTTL ]
  ++ updateSortedSetsCmds todo
  ++ (if oldTodo.status ≠ todo.status then
        handleStatusChangeCmds todo.id todo.userID oldTodo.status todo.status
          (find todo.id)
      else [])

/-- The pipeline DeleteTodo builds: DEL the PointRecord, ZREM from all eight
sorted sets. -/
def deleteTodoPipeline (todoID userID : Int) : List RCmd :=
  RCmd.del (BuildTodoHashKey todoID) ::
    (GetAllSortedSetKeys userID).map (fun key => RCmd.zrem key todoID)

/-- The pipeline UpdateTodoStatus builds, given the todo read from the store:
HSET only the `status` field of the PointRecord, then the status move, then
update all eight sorted sets for the todo with its new status. -/
def updateTodoStatusPipeline (find : Int → Option Todo) (todo : Todo)
    (todoID userID : Int) (newStatus : String) : List RCmd :=
  let oldStatus := todo.status
  [ RCmd.hsetField (BuildTodoHashKey todoID) "status" newStatus ]
  ++ handleStatusChangeCmds todoID userID oldStatus newStatus (find todoID)
  ++ updateSortedSetsCmds { todo with status := newStatus }

/-! Operation traces. Each cache-engine operation is modelled as the sequence
of external calls it makes (store calls, pipeline executions, pattern
deletes) together with its returned result. The store mutators exist on the
`TodoRepository` interface (internal/domain/repository); the trace records
which of them an operation actually invokes. -/

inductive Event where
  | storeFindByID (id : Int)
  | storeCreate (todo : Todo)
  | storeUpdate (todo : Todo)
  | storeDelete (id : Int)
  | storeFindByUserIDAndFilters (userID : Int) (status priority : Option String)
      (sortBy sortOrder : String) (offset limit : Int)
  | redisExecPipeline (cmds : List RCmd)
  | redisDelPattern (pattern : String)
deriving DecidableEq, Repr

/-- Is this event a call to a store mutator (`Create`, `Update` or `Delete`)? -/
def isStoreMutator : Event → Bool
  | .storeCreate _ => true
  | .storeUpdate _ => true
  | .storeDelete _ => true
  | _ => false

/-- The blob pattern a write op pattern-deletes:
`cache:todos:user:{uid}:query:*`. -/
def queryPattern (userID : Int) : String :=
  TodoQueryCachePrefix ++ toString userID ++ QueryCacheSuffix ++ "*"

/-- The prefix that pattern matches (everything before the final `*`). -/
def queryPrefix (userID : Int) : String :=
  TodoQueryCachePrefix ++ toString userID ++ QueryCacheSuffix

/-- Outcome flags for the two fallible Redis steps of a write op. -/
structure RedisOutcome where
  pipelineOK : Bool
  delPatternOK : Bool
deriving DecidableEq, Repr

/-- CreateTodo's critical section (the function run under the lease): build
and execute the pipeline; on pipeline success pattern-delete the query blobs
(a DelPattern failure is only logged) and return nil. No store call occurs. -/
def createTodoRun (ro : RedisOutcome) (todo : Todo) :
    Except String Unit × List Event :=
  let evs := [Event.redisExecPipeline (createTodoPipeline todo)]
  if ro.pipelineOK then
    (Except.ok (), evs ++ [Event.redisDelPattern (queryPattern todo.userID)])
  else
    (Except.error "failed to execute pipeline", evs)

/-- UpdateTodo's critical section: `FindByID` the prior todo (its error
short-circuits), execute the pipeline, pattern-delete the blobs, return nil. -/
def updateTodoRun (find : Int → Option Todo) (ro : RedisOutcome) (todo : Todo) :
    Except String Unit × List Event :=
  match find todo.id with
  | none => (Except.error "record not found", [Event.storeFindByID todo.id])
  | some oldTodo =>
    let innerFind :=
      if oldTodo.status ≠ todo.status then [Event.storeFindByID todo.id] else []
    let cmds := updateTodoPipeline find todo oldTodo
    let evs := Event.storeFindByID todo.id :: innerFind ++
      [Event.redisExecPipeline cmds]
    if ro.pipelineOK then
      (Except.ok (), evs ++ [Event.redisDelPattern (queryPattern todo.userID)])
    else
      (Except.error "failed to execute pipeline", evs)

/-- DeleteTodo's critical section: execute the deletion pipeline,
pattern-delete the blobs, return nil. No store call occurs. -/
def deleteTodoRun (ro : RedisOutcome) (todoID userID : Int) :
    Except String Unit × List Event :=
  let evs := [Event.redisExecPipeline (deleteTodoPipeline todoID userID)]
  if ro.pipelineOK then
    (Except.ok (), evs ++ [Event.redisDelPattern (queryPattern userID)])
  else
    (Except.error "failed to execute pipeline", evs)

/-- UpdateTodoStatus's critical section: `FindByID` the todo (its error
short-circuits), execute the pipeline (which embeds a second `FindByID`
inside handleStatusChangeWithPipeline), pattern-delete the blobs, return
nil. -/
def updateTodoStatusRun (find : Int → Option Todo) (ro : RedisOutcome)
    (todoID userID : Int) (newStatus : String) :
    Except String Unit × List Event :=
  match find todoID with
  | none => (Except.error "record not found", [Event.storeFindByID todoID])
  | some todo =>
    let cmds := updateTodoStatusPipeline find todo todoID userID newStatus
    let evs := [Event.storeFindByID todoID, Event.storeFindByID todoID,
      Event.redisExecPipeline cmds]
    if ro.pipelineOK then
      (Except.ok (), evs ++ [Event.redisDelPattern (queryPattern userID)])
    else
      (Except.error "failed to execute pipeline", evs)

/-- Does the first char list lead the second? (Structural helper for glob
matching of a wildcard-free pattern followed by `*`.) -/
def charsLead : List Char → List Char → Bool
  | [], _ => true
  | _ :: _, [] => false
  | a :: as, b :: bs => a = b && charsLead as bs

/-- Does `key` match the glob pattern `pfx*`? -/
def globMatch (pfx key : String) : Bool :=
  charsLead pfx.data key.data

/-- DelPattern (connection.go) at the state level: the SCAN-and-DEL sweep
removes every key matching `prefix*`. -/
def delPatternState (st : RedisState) (pfx : String) : RedisState :=
  fun k => if globMatch pfx k then none else st k

/-- The keyspace after a write op's Redis effects: the pipeline (when it
executed successfully) followed by the blob sweep (when the sweep
succeeded). -/
def writeOpFinalState (st : RedisState) (ro : RedisOutcome) (cmds : List RCmd)
    (userID : Int) : RedisState :=
  if ro.pipelineOK then
    let st2 := applyCmds st cmds
    if ro.delPatternOK then delPatternState st2 (queryPrefix userID) else st2
  else st

/-! Read paths (todo_cache.go). Each model is parameterized by the outcomes
of its Redis calls (`Except Unit _`, error = Redis-level failure such as the
server being unreachable) and by the store. Hash parsing and blob decoding
are abstracted as parameters: the Redis-unavailable branches the claims are
about never reach them. -/

/-- GetTodo: HGETALL the PointRecord; when that succeeded, returned fields
and they parse, answer from cache; otherwise fall through (under
singleflight) to `FindByID`, whose result is returned as-is (the synchronous
cache write-back error is discarded). -/
def getTodoRun (hres : Except Unit (List (String × String)))
    (parse : List (String × String) → Except Unit Todo)
    (find : Int → Except String Todo) (todoID : Int) : Except String Todo :=
  match hres with
  | .ok fields =>
    if fields.length > 0 then
      match parse fields with
      | .ok todo => .ok todo
      | .error _ => find todoID
    else find todoID
  | .error _ => find todoID

/-- getTodoListFromQueryCache (blob path): GET the blob; when that succeeded,
is non-empty and decodes, answer from cache; otherwise fall through (under
singleflight) to `FindByUserIDAndFilters`; the SET of the fresh blob may
fail (`setOK = false`) with its error discarded. -/
def getTodoListFromQueryCacheRun (gres : Except Unit String)
    (decode : String → Except Unit (List Todo × Int))
    (storeList : Except String (List Todo × Int)) (_setOK : Bool) :
    Except String (List Todo × Int) :=
  match gres with
  | .ok cached =>
    if cached ≠ "" then
      match decode cached with
      | .ok r => .ok r
      | .error _ => storeList
    else storeList
  | .error _ => storeList

/-- Errors surfaced by the index path: a Redis-level failure or a store
failure. -/
inductive ListErr where
  | redisErr
  | storeErr (msg : String)
deriving DecidableEq, Repr

/-- The outcomes of the Redis calls made on the index path. -/
structure RedisListOps where
  existsRes : Except Unit Int
  zrangeRes : Except Unit (List Int)
  zcardRes : Except Unit Int
  rebuildPipeRes : Except Unit Unit

/-- rebuildSortedSetWithFlight's result: the store list call then the DEL +
ZADDs + EXPIRE pipeline; either failure surfaces. -/
def rebuildSortedSetRun (storeList : Except String (List Todo))
    (pipeRes : Except Unit Unit) : Except ListErr (List Todo) :=
  match storeList with
  | .error e => .error (.storeErr e)
  | .ok todos =>
    match pipeRes with
    | .error _ => .error .redisErr
    | .ok _ => .ok todos

/-- getTodoListFromSortedSet (index path, the body run under singleflight):
EXISTS the index key — an error here surfaces; rebuild when absent; ZRANGE
the id page; ZCARD the total; resolve each id (ids whose resolution fails
are skipped). Every Redis-level error is returned to the caller: there is
no store fallback on this path. -/
def getTodoListFromSortedSetRun (r : RedisListOps)
    (storeList : Except String (List Todo))
    (resolve : Int → Except String Todo) : Except ListErr (List Todo × Int) :=
  match r.existsRes with
  | .error _ => .error .redisErr
  | .ok n =>
    let rebuilt : Except ListErr Unit :=
      if n = 0 then
        match rebuildSortedSetRun storeList r.rebuildPipeRes with
        | .error e => .error e
        | .ok _ => .ok ()
      else .ok ()
    match rebuilt with
    | .error e => .error e
    | .ok _ =>
      match r.zrangeRes with
      | .error _ => .error .redisErr
      | .ok ids =>
        match r.zcardRes with
        | .error _ => .error .redisErr
        | .ok total =>
          .ok (ids.filterMap (fun id => (resolve id).toOption), total)

/-! Distributed lock (lock.go and connection.go). The Redis string keyspace
is a map from keys to stored values. -/

def KVState := String → Option String

/-- The empty string keyspace. -/
def emptyKV : KVState := fun _ => none

/-- SETNX: set only if absent; returns whether it set. -/
def setNX (st : KVState) (key value : String) : Bool × KVState :=
  match st key with
  | some _ => (false, st)
  | none => (true, fun k => if k = key then some value else st k)

/-- DEL one key. -/
def kvDel (st : KVState) (key : String) : KVState :=
  fun k => if k = key then none else st k

/-- Client.Lock (connection.go): prefixes `lock:` onto its key argument and
SETNX the constant string "1" there. -/
def clientLock (st : KVState) (key : String) : Bool × KVState :=
  setNX st ("lock:" ++ key) "1"

/-- Client.Unlock (connection.go): unconditional DEL of the prefixed key. -/
def clientUnlock (st : KVState) (key : String) : KVState :=
  kvDel st ("lock:" ++ key)

/-- RedisLock (lock.go): local handle holding the already-prefixed key
(`BuildLockKey resource`), the held flag, and the generated identifier.
generateIdentifier is time-based, so the identifier is a parameter here. -/
structure RedisLock where
  key : String
  locked : Bool
  identifier : String
deriving DecidableEq, Repr

/-- NewLock (lock.go). -/
def NewLock (resource identifier : String) : RedisLock :=
  { key := BuildLockKey resource, locked := false, identifier := identifier }

/-- RedisLock.TryLock: error when the handle already holds the lock,
otherwise Client.Lock; on acquisition mark the handle held. -/
def tryLock (l : RedisLock) (st : KVState) :
    Except String Bool × RedisLock × KVState :=
  if l.locked then (.error "lock is already held", l, st)
  else
    let r := clientLock st l.key
    if r.1 then (.ok true, { l with locked := true }, r.2)
    else (.ok false, l, r.2)

/-- RedisLock.Unlock: error when the handle does not hold the lock,
otherwise Client.Unlock — an unconditional DEL with no owner check — and
clear the held flag. -/
def unlock (l : RedisLock) (st : KVState) :
    Except String Unit × RedisLock × KVState :=
  if !l.locked then (.error "lock is not held", l, st)
  else (.ok (), { l with locked := false }, clientUnlock st l.key)

/-- The Redis key a lease for `resource` actually lives at: `BuildLockKey`
prefixes once, `Client.Lock` prefixes again. -/
def fullLockKey (resource : String) : String :=
  "lock:" ++ BuildLockKey resource

/-- TTL expiry of a lease: Redis drops the key. -/
def expireLease (st : KVState) (resource : String) : KVState :=
  kvDel st (fullLockKey resource)

/-! Request coalescing. -/

/-- Modelled from the spec: the Coalescer of §4.4 is provided by the external
library golang.org/x/sync/singleflight, whose source is not part of this
repository. For one flight key, `Do(key, loader)` starts the loader when no
call is in flight, otherwise joins the in-flight call as a waiter; the
completing loader broadcasts its value (or error) to every waiter. The state
records the in-flight waiter set, how many times a loader was started, and
the (caller, value) deliveries made so far. -/
structure SfState (α : Type) where
  inflight : Option (List Nat)
  loaderRuns : Nat
  delivered : List (Nat × α)

/-- No call in flight, no loads, nothing delivered. -/
def sfInit (α : Type) : SfState α := ⟨none, 0, []⟩

/-- Caller `i` invokes `Do`: start a loader if none is in flight, else wait. -/
def sfArrive (st : SfState α) (i : Nat) : SfState α :=
  match st.inflight with
  | none => { st with inflight := some [i], loaderRuns := st.loaderRuns + 1 }
  | some ws => { st with inflight := some (i :: ws) }

/-- The in-flight loader completes with value `v`: every waiter receives `v`
and the flight closes. -/
def sfComplete (st : SfState α) (v : α) : SfState α :=
  match st.inflight with
  | none => st
  | some ws =>
    { inflight := none, loaderRuns := st.loaderRuns,
      delivered := st.delivered ++ ws.map (fun i => (i, v)) }

/-- N concurrent identical calls: all arrive while the first caller's loader
is still running, then that loader completes with `v`. -/
def sfRunConcurrent (arrivals : List Nat) (v : α) : SfState α :=
  sfComplete (arrivals.foldl sfArrive (sfInit α)) v

/-- The store events of one run of the index-path loader when the flight key
is absent (cache miss): the rebuild issues a single
`FindByUserIDAndFilters(userID, filters.Status, filters.Priority, nil, nil,
sortBy, sortOrder, 0, 10000)`; the ids of the returned page are then resolved
through the PointRecord protocol, each cache miss there being a `FindByID`
(a different store method). -/
def sortedSetLoaderStoreEvents (userID : Int) (filters : Option ListFilter)
    (sortBy sortOrder : String) (resolveMissIDs : List Int) : List Event :=
  Event.storeFindByUserIDAndFilters userID
      (filters.bind (fun f => f.status)) (filters.bind (fun f => f.priority))
      sortBy sortOrder 0 10000
    :: resolveMissIDs.map (fun id => Event.storeFindByID id)

/-- How many `FindByUserIDAndFilters` calls a trace contains. -/
def countListCalls (evs : List Event) : Nat :=
  evs.countP (fun e =>
    match e with
    | .storeFindByUserIDAndFilters _ _ _ _ _ _ _ => true
    | _ => false)

/-! Path choice of GetTodoList (todo_cache.go). -/

/-- Which of the two list-read paths GetTodoList takes. -/
inductive ListPath where
  | index
  | blob
deriving DecidableEq, Repr

/-- GetTodoList (todo_cache.go): sorted-set path iff ShouldUseSortedSet,
otherwise the query-cache (blob) path. -/
def getTodoListPath (filters : Option ListFilter) (sortBy : String) : ListPath :=
  if ShouldUseSortedSet filters sortBy then ListPath.index else ListPath.blob

/-- The spec's blob-path condition, written from the spec's words (§4.5):
due_from or due_to non-null, or search non-empty, or status and priority both
set, or the sort field outside {due_date, created_at, title}. -/
def specBlobCondition (filters : Option ListFilter) (sortBy : String) : Bool :=
  (match filters with
   | some f =>
     f.dueDateFrom.isSome || f.dueDateTo.isSome || (f.search ≠ "") ||
       (f.status.isSome && f.priority.isSome)
   | none => false)
  || !((sortBy = "due_date") || (sortBy = "created_at") || (sortBy = "title"))

/-! Sample inputs used by concrete evaluations. -/

/-- A concrete todo of user 7 in status not_started (spec scenario 2). -/
def todo42 : Todo :=
  { id := 42, userID := 7, title := "write spec", description := "",
    dueDate := none, status := "not_started", priority := "medium",
    createdAt := 1700000000, updatedAt := 1700000000 }

/-- A store whose FindByID knows only todo 42. -/
def store42 : Int → Option Todo := fun i => if i = 42 then some todo42 else none

/-! General lemmas. -/

/-- FNV-1a 32-bit outputs stay below 2^32. -/
theorem fnv32a_lt_two_pow_32 (bytes : List Nat) : fnv32a bytes < 4294967296 := by
  have step : ∀ (l : List Nat) (h : Nat), h < 4294967296 →
      List.foldl fnv32aStep h l < 4294967296 := by
    intro l
    induction l with
    | nil => intro h hh; simpa using hh
    | cons b bs ih =>
      intro h _
      have : fnv32aStep h b < 4294967296 := Nat.mod_lt _ (by norm_num)
      simpa using ih (fnv32aStep h b) this
  exact step bytes 2166136261 (by norm_num)

/-- Claim C6: GetTodoList takes the blob path exactly under the spec's
condition: a date bound is present, or the search string is non-empty, or
status and priority are both set, or the sort field is not one of due_date,
created_at, title; otherwise it takes the index path. -/
theorem c6_blob_path_predicate (filters : Option ListFilter) (sortBy : String) :
    getTodoListPath filters sortBy = ListPath.blob ↔
      specBlobCondition filters sortBy = true := by
  obtain - | ⟨st, pr, se, df, dt⟩ := filters <;>
    · simp only [getTodoListPath, ShouldUseSortedSet, specBlobCondition]
      by_cases h1 : sortBy = "due_date" <;> by_cases h2 : sortBy = "created_at" <;>
        by_cases h3 : sortBy = "title" <;>
        simp [h1, h2, h3, Option.isSome_iff_ne_none] <;> tauto

/-- Claim C7: the Scorer is a pure function of the todo's fields with:
(due_date, asc) the unix seconds with null mapping to +inf; (due_date, desc)
the negated seconds with null mapping to -inf; (created_at, desc) the
negated created_at seconds; (title, asc) the 32-bit FNV-1a hash of the
title's UTF-8 bytes; and any unknown sort field scoring as (created_at,
desc). -/
theorem c7_scorer_contract (t u : Todo) :
    GetTodoScore t "due_date" "asc" =
        (match t.dueDate with
         | none => Score.posInf
         | some d => Score.num d)
  ∧ GetTodoScore t "due_date" "desc" =
        (match t.dueDate with
         | none => Score.negInf
         | some d => Score.num (-d))
  ∧ GetTodoScore t "created_at" "desc" = Score.num (-t.createdAt)
  ∧ GetTodoScore t "title" "asc" =
        Score.num (Int.ofNat (fnv32a (utf8Bytes t.title)))
  ∧ fnv32a (utf8Bytes t.title) < 4294967296
  ∧ (∀ f o, f ≠ "due_date" → f ≠ "created_at" → f ≠ "title" →
        GetTodoScore t f o = GetTodoScore t "created_at" "desc")
  ∧ (t.dueDate = u.dueDate → t.createdAt = u.createdAt → t.title = u.title →
        ∀ f o, GetTodoScore t f o = GetTodoScore u f o) := by
  refine ⟨?_, ?_, ?_, ?_, fnv32a_lt_two_pow_32 _, ?_, ?_⟩
  · cases h : t.dueDate <;>
      simp [GetTodoScore, getDueDateScore, h]
  · cases h : t.dueDate <;>
      simp [GetTodoScore, getDueDateScore, h]
  · simp [GetTodoScore, getCreatedAtScore]
  · simp [GetTodoScore, getTitleScore]
  · intro f o h1 h2 h3
    simp [GetTodoScore, h1, h2, h3]
  · intro h1 h2 h3 f o
    simp [GetTodoScore, getDueDateScore, getCreatedAtScore, getTitleScore,
      h1, h2, h3]

/-- Witness for C7: the contract evaluated at the sample todo, with the
unknown-field hypotheses discharged for the field "priority". -/
theorem c7_scorer_contract_witness :
    GetTodoScore todo42 "priority" "asc" = Score.num (-1700000000)
  ∧ GetTodoScore todo42 "due_date" "asc" = Score.posInf := by
  obtain ⟨h1, -, h3, -, -, h6, -⟩ := c7_scorer_contract todo42 todo42
  refine ⟨?_, ?_⟩
  · rw [h6 "priority" "asc" (by decide) (by decide) (by decide), h3]
    rfl
  · rw [h1]
    rfl

/-- Keys of the todo-list keyspace (`cache:todos:user:` …) and of the
PointRecord keyspace (`cache:todo:` …) never coincide: they differ at
character index 10. -/
theorem key_disjoint (a b : String) :
    ("cache:todos:user:" ++ a) ≠ ("cache:todo:" ++ b) := by
  intro h
  have h10 := congrArg (fun s => s.data.getD 10 ' ') h
  simp only [String.data_append] at h10
  rw [List.getD_append _ _ _ _ (by decide), List.getD_append _ _ _ _ (by decide)]
    at h10
  exact absurd h10 (by decide)

/-- A sorted-set index key never equals a PointRecord hash key. -/
theorem sortedKey_ne_hashKey (u : Int) (f : Option ListFilter)
    (sb so : String) (i : Int) :
    BuildSortedSetKey u f sb so ≠ BuildTodoHashKey i := by
  obtain - | ⟨st, pr, se, df, dt⟩ := f
  · simpa [BuildSortedSetKey, BuildTodoHashKey, TodoSortedSetPrefix,
      TodoHashKeyPrefix, String.append_assoc] using key_disjoint _ _
  · obtain - | s := st <;> obtain - | p := pr <;>
      simpa [BuildSortedSetKey, BuildTodoHashKey, TodoSortedSetPrefix,
        TodoHashKeyPrefix, String.append_assoc] using key_disjoint _ _

/-- A status-change index key never equals a PointRecord hash key. -/
theorem statusKey_ne_hashKey (u : Int) (s : String) (i : Int) :
    (TodoSortedSetPrefix ++ toString u ++ ":sorted:status:" ++ s ++
      ":due_date:asc") ≠ BuildTodoHashKey i := by
  simpa [TodoSortedSetPrefix, BuildTodoHashKey, TodoHashKeyPrefix,
    String.append_assoc] using key_disjoint _ _

/-- Claim C1: after a successful `UpdateTodoStatus(42, 7, "in_progress")` on a
todo in status not_started, the id is expected absent from the not_started
index and present in the in_progress index. The code leaves it PRESENT in
both: `updateSortedSetsWithPipeline` runs after `handleStatusChangeWithPipeline`
inside the same pipeline and unconditionally ZADDs the id back into every
status-filtered index, undoing the ZREM from the old status index. -/
theorem c1_status_change_leaves_old_index :
    (updateTodoStatusRun store42 ⟨true, true⟩ 42 7 "in_progress").1 =
      Except.ok ()
  ∧ zsetContains
      (writeOpFinalState emptyRedis ⟨true, true⟩
        (updateTodoStatusPipeline store42 todo42 42 7 "in_progress") 7)
      "cache:todos:user:7:sorted:status:not_started:due_date:asc" 42 = true
  ∧ zsetContains
      (writeOpFinalState emptyRedis ⟨true, true⟩
        (updateTodoStatusPipeline store42 todo42 42 7 "in_progress") 7)
      "cache:todos:user:7:sorted:status:in_progress:due_date:asc" 42 = true := by
  refine ⟨rfl, rfl, rfl⟩

/-- Claim C2: the write operations of the cache engine are claimed to call
the store's `Create`/`Update`/`Delete` under the lease. Evaluating every
write operation at a concrete input shows each returns success while its
trace contains no store-mutator call at all (the only store calls are
`FindByID` reads). -/
theorem c2_no_store_mutator_in_write_ops :
    ((createTodoRun ⟨true, true⟩ todo42).2.all
        (fun e => !isStoreMutator e) = true
      ∧ (createTodoRun ⟨true, true⟩ todo42).1 = Except.ok ())
  ∧ ((updateTodoRun store42 ⟨true, true⟩
        { todo42 with status := "completed" }).2.all
          (fun e => !isStoreMutator e) = true
      ∧ (updateTodoRun store42 ⟨true, true⟩
          { todo42 with status := "completed" }).1 = Except.ok ())
  ∧ ((deleteTodoRun ⟨true, true⟩ 42 7).2.all
        (fun e => !isStoreMutator e) = true
      ∧ (deleteTodoRun ⟨true, true⟩ 42 7).1 = Except.ok ())
  ∧ ((updateTodoStatusRun store42 ⟨true, true⟩ 42 7 "in_progress").2.all
        (fun e => !isStoreMutator e) = true
      ∧ (updateTodoStatusRun store42 ⟨true, true⟩ 42 7 "in_progress").1 =
          Except.ok ()) := by
  exact ⟨⟨rfl, rfl⟩, ⟨rfl, rfl⟩, ⟨rfl, rfl⟩, ⟨rfl, rfl⟩⟩

/-- Does a command address the given key? -/
def cmdTouches (key : String) : RCmd → Bool
  | .hsetAll k _ => k = key
  | .hsetField k _ _ => k = key
  | .del k => k = key
  | .expire k _ => k = key
  | .zrem k _ => k = key
  | .zadd k _ _ => k = key

/-- Counterexample for C5: a successful status-change write does not HSET the
PointRecord with all fields (it issues no full HSET on the hash key at all)
and does not refresh its TTL (no EXPIRE on the hash key); the only hash
command is the single-field status HSET. -/
theorem c5_status_change_hash_counterexample :
    (updateTodoStatusRun store42 ⟨true, true⟩ 42 7 "in_progress").1 =
      Except.ok ()
  ∧ (updateTodoStatusPipeline store42 todo42 42 7 "in_progress").all
      (fun c =>
        match c with
        | RCmd.expire k _ => !(k = BuildTodoHashKey 42)
        | _ => true) = true
  ∧ (updateTodoStatusPipeline store42 todo42 42 7 "in_progress").all
      (fun c =>
        match c with
        | RCmd.hsetAll k _ => !(k = BuildTodoHashKey 42)
        | _ => true) = true
  ∧ (updateTodoStatusPipeline store42 todo42 42 7 "in_progress").contains
      (RCmd.hsetField (BuildTodoHashKey 42) "status" "in_progress") = true := by
  exact ⟨rfl, rfl, rfl, rfl⟩

/-- Claim C5 (amended): create and update HSET the PointRecord with the
todo's current scalar fields — description omitted when empty, due_date
omitted when null — and refresh its TTL; a status-change write touches the
PointRecord only with a single-field HSET of `status` and does not refresh
its TTL. -/
theorem c5_point_record_amended (find : Int → Option Todo)
    (todo oldT t : Todo) (todoID userID : Int) (ns : String) :
    (createTodoPipeline todo).take 2 =
      [ RCmd.hsetAll (BuildTodoHashKey todo.id) (BuildPipelineTodoHash todo),
        RCmd.expire (BuildTodoHashKey todo.id) TTL.hashTTL ]
  ∧ (updateTodoPipeline find todo oldT).take 2 =
      [ RCmd.hsetAll (BuildTodoHashKey todo.id) (BuildPipelineTodoHash todo),
        RCmd.expire (BuildTodoHashKey todo.id) TTL.hashTTL ]
  ∧ (BuildPipelineTodoHash todo).map Prod.fst =
      ["id", "user_id", "title", "status", "priority", "created_at",
        "updated_at"]
        ++ (if todo.description ≠ "" then ["description"] else [])
        ++ (match todo.dueDate with
            | some _ => ["due_date"]
            | none => [])
  ∧ (updateTodoStatusPipeline find t todoID userID ns).filter
        (fun c => cmdTouches (BuildTodoHashKey todoID) c) =
      [RCmd.hsetField (BuildTodoHashKey todoID) "status" ns] := by
  refine ⟨rfl, rfl, ?_, ?_⟩
  · cases h : todo.dueDate <;> by_cases hd : todo.description = "" <;>
      simp [BuildPipelineTodoHash, h, hd]
  · cases hf : find todoID <;>
      simp [updateTodoStatusPipeline, handleStatusChangeCmds,
        updateSortedSetsCmds, sortedSetConfigs, BuildStatusChangeKeys,
        cmdTouches, hf, sortedKey_ne_hashKey, statusKey_ne_hashKey]

/-- Counterexample for C3: with Redis unavailable (the EXISTS check errors)
and a store that would answer, the index-path list read returns a Redis error
to the caller instead of the store's answer. -/
theorem c3_index_path_error_counterexample :
    getTodoListFromSortedSetRun
      { existsRes := Except.error (), zrangeRes := Except.ok [42],
        zcardRes := Except.ok 1, rebuildPipeRes := Except.ok () }
      (Except.ok [todo42]) (fun _ => Except.ok todo42) =
      Except.error ListErr.redisErr := rfl

/-- Claim C3 (amended): with Redis unavailable, `GetTodo` and the blob-path
list read bypass the cache and return the store's answer, but the index-path
list read surfaces the Redis error to the caller (there is no store fallback
on that path). -/
theorem c3_read_degradation_amended
    (parse : List (String × String) → Except Unit Todo)
    (find : Int → Except String Todo) (todoID : Int)
    (decode : String → Except Unit (List Todo × Int))
    (storeList : Except String (List Todo × Int)) (setOK : Bool)
    (r : RedisListOps) (storeTodos : Except String (List Todo))
    (resolve : Int → Except String Todo)
    (hdown : r.existsRes = Except.error ()) :
    getTodoRun (Except.error ()) parse find todoID = find todoID
  ∧ getTodoListFromQueryCacheRun (Except.error ()) decode storeList setOK =
      storeList
  ∧ getTodoListFromSortedSetRun r storeTodos resolve =
      Except.error ListErr.redisErr := by
  refine ⟨rfl, rfl, ?_⟩
  simp [getTodoListFromSortedSetRun, hdown]

/-- Witness for C3 (amended), at concrete inputs with the EXISTS call
failing. -/
theorem c3_read_degradation_amended_witness :
    getTodoRun (Except.error ()) (fun _ => Except.error ())
        (fun _ => Except.ok todo42) 42 = Except.ok todo42
  ∧ getTodoListFromQueryCacheRun (Except.error ()) (fun _ => Except.error ())
        (Except.ok ([todo42], 1)) true = Except.ok ([todo42], 1)
  ∧ getTodoListFromSortedSetRun
        { existsRes := Except.error (), zrangeRes := Except.ok [],
          zcardRes := Except.ok 0, rebuildPipeRes := Except.ok () }
        (Except.ok []) (fun _ => Except.ok todo42) =
        Except.error ListErr.redisErr :=
  c3_read_degradation_amended (fun _ => Except.error ())
    (fun _ => Except.ok todo42) 42 (fun _ => Except.error ())
    (Except.ok ([todo42], 1)) true
    { existsRes := Except.error (), zrangeRes := Except.ok [],
      zcardRes := Except.ok 0, rebuildPipeRes := Except.ok () }
    (Except.ok []) (fun _ => Except.ok todo42) rfl

/-- Counterexample for C4: for user 7, after TryAcquire the claimed key
`lock:todo:user:7` holds nothing; the lease actually lives at
`lock:lock:todo:user:7` (the `lock:` prefix is applied by BuildLockKey and
then again by Client.Lock), and the stored value is the constant "1", not a
token identifying the caller. -/
theorem c4_lock_key_counterexample :
    (clientLock emptyKV (NewLock "todo:user:7" "holder-a").key).1 = true
  ∧ (clientLock emptyKV (NewLock "todo:user:7" "holder-a").key).2
      "lock:todo:user:7" = none
  ∧ (clientLock emptyKV (NewLock "todo:user:7" "holder-a").key).2
      "lock:lock:todo:user:7" = some "1" := by
  exact ⟨rfl, rfl, rfl⟩

/-- Claim C4 (amended): a write lease for user U lives at
`lock:lock:todo:user:{U}` — the `lock:` prefix is applied twice, once by
BuildLockKey and once by Client.Lock — and the stored value is the constant
"1" rather than a caller-identifying token; TryAcquire (SETNX) sets the key
only if absent, changes nothing else, and returns true iff the key was
absent, in which case the caller now holds the lease. -/
theorem c4_lease_amended (resource ident : String) (st : KVState) :
    (NewLock resource ident).key = BuildLockKey resource
  ∧ fullLockKey resource = "lock:" ++ ("lock:" ++ resource)
  ∧ (st (fullLockKey resource) = none →
       (tryLock (NewLock resource ident) st).1 = Except.ok true
       ∧ (tryLock (NewLock resource ident) st).2.1.locked = true
       ∧ (tryLock (NewLock resource ident) st).2.2 (fullLockKey resource) =
           some "1"
       ∧ ∀ k, k ≠ fullLockKey resource →
           (tryLock (NewLock resource ident) st).2.2 k = st k)
  ∧ (∀ v, st (fullLockKey resource) = some v →
       (tryLock (NewLock resource ident) st).1 = Except.ok false
       ∧ (tryLock (NewLock resource ident) st).2.2 = st) := by
  have hfull : fullLockKey resource = "lock:" ++ BuildLockKey resource := rfl
  refine ⟨rfl, ?_, ?_, ?_⟩
  · simp [fullLockKey, BuildLockKey, LockKeyPrefix]
  · intro hfree
    have hfree2 : st ("lock:" ++ BuildLockKey resource) = none := hfree
    refine ⟨?_, ?_, ?_, ?_⟩
    · simp [tryLock, NewLock, clientLock, setNX, hfree2]
    · simp [tryLock, NewLock, clientLock, setNX, hfree2]
    · rw [hfull]
      simp [tryLock, NewLock, clientLock, setNX, hfree2]
    · intro k hk
      rw [hfull] at hk
      simp [tryLock, NewLock, clientLock, setNX, hfree2, hk]
  · intro v hheld
    have hheld2 : st ("lock:" ++ BuildLockKey resource) = some v := hheld
    constructor
    · simp [tryLock, NewLock, clientLock, setNX, hheld2]
    · simp [tryLock, NewLock, clientLock, setNX, hheld2]

/-- Witness for C4 (amended): both branches exercised concretely — acquiring
on an empty keyspace, and failing to acquire when the doubled key is
held. -/
theorem c4_lease_amended_witness :
    (tryLock (NewLock "todo:user:7" "holder-a") emptyKV).1 = Except.ok true
  ∧ (tryLock (NewLock "todo:user:7" "holder-a")
        (fun k => if k = "lock:lock:todo:user:7" then some "1" else none)).1 =
      Except.ok false := by
  constructor
  · exact ((c4_lease_amended "todo:user:7" "holder-a" emptyKV).2.2.1 rfl).1
  · exact ((c4_lease_amended "todo:user:7" "holder-a"
      (fun k => if k = "lock:lock:todo:user:7" then some "1" else none)).2.2.2
        "1" (by rfl)).1

/-- Claim C8: every write op that returns successfully with Redis available
has pattern-deleted all blob keys `cache:todos:user:{U}:query:*` before
returning (the sweep runs after the pipeline inside the critical section),
and a failing sweep is only logged: the op still returns success and still
issued the DelPattern call. -/
theorem c8_blob_invalidation (st : RedisState) (todo oldT t : Todo)
    (find : Int → Option Todo) (todoID userID : Int) (ns : String)
    (k k2 : String)
    (hfindU : find todo.id = some oldT) (hfindS : find todoID = some t)
    (hk : globMatch (queryPrefix todo.userID) k = true)
    (hk2 : globMatch (queryPrefix userID) k2 = true) :
    ((createTodoRun ⟨true, true⟩ todo).1 = Except.ok ()
      ∧ writeOpFinalState st ⟨true, true⟩ (createTodoPipeline todo)
          todo.userID k = none)
  ∧ ((updateTodoRun find ⟨true, true⟩ todo).1 = Except.ok ()
      ∧ writeOpFinalState st ⟨true, true⟩ (updateTodoPipeline find todo oldT)
          todo.userID k = none)
  ∧ ((deleteTodoRun ⟨true, true⟩ todoID userID).1 = Except.ok ()
      ∧ writeOpFinalState st ⟨true, true⟩ (deleteTodoPipeline todoID userID)
          userID k2 = none)
  ∧ ((updateTodoStatusRun find ⟨true, true⟩ todoID userID ns).1 = Except.ok ()
      ∧ writeOpFinalState st ⟨true, true⟩
          (updateTodoStatusPipeline find t todoID userID ns) userID k2 = none)
  ∧ ((createTodoRun ⟨true, false⟩ todo).1 = Except.ok ()
      ∧ (updateTodoRun find ⟨true, false⟩ todo).1 = Except.ok ()
      ∧ (deleteTodoRun ⟨true, false⟩ todoID userID).1 = Except.ok ()
      ∧ (updateTodoStatusRun find ⟨true, false⟩ todoID userID ns).1 =
          Except.ok ()
      ∧ (createTodoRun ⟨true, false⟩ todo).2.contains
          (Event.redisDelPattern (queryPattern todo.userID)) = true) := by
  refine ⟨⟨rfl, ?_⟩, ⟨?_, ?_⟩, ⟨rfl, ?_⟩, ⟨?_, ?_⟩, ?_, ?_, rfl, ?_, ?_⟩
  · simp [writeOpFinalState, delPatternState, hk]
  · simp [updateTodoRun, hfindU]
  · simp [writeOpFinalState, delPatternState, hk]
  · simp [writeOpFinalState, delPatternState, hk2]
  · simp [updateTodoStatusRun, hfindS]
  · simp [writeOpFinalState, delPatternState, hk2]
  · rfl
  · simp [updateTodoRun, hfindU]
  · simp [updateTodoStatusRun, hfindS]
  · simp [createTodoRun, List.contains]

/-- Witness for C8, at the sample todo with a concretely matching blob
key. -/
theorem c8_blob_invalidation_witness :
    (createTodoRun ⟨true, true⟩ todo42).1 = Except.ok ()
  ∧ writeOpFinalState emptyRedis ⟨true, true⟩ (createTodoPipeline todo42) 7
      "cache:todos:user:7:query:abc" = none := by
  have h := c8_blob_invalidation emptyRedis todo42 todo42 todo42 store42 42 7
    "in_progress" "cache:todos:user:7:query:abc" "cache:todos:user:7:query:abc"
    (by rfl) (by rfl) (by rfl) (by rfl)
  exact ⟨h.1.1, h.1.2⟩

/-! Single-flight lemmas. -/

/-- Folding further arrivals over a state with an open flight only grows the
waiter set: no further loader starts, nothing is delivered yet. -/
theorem sf_foldl_arrivals {α : Type} (rest : List Nat) :
    ∀ (st : SfState α) (ws : List Nat), st.inflight = some ws →
      ∃ ws2, (List.foldl sfArrive st rest).inflight = some ws2
        ∧ (List.foldl sfArrive st rest).loaderRuns = st.loaderRuns
        ∧ (List.foldl sfArrive st rest).delivered = st.delivered
        ∧ (∀ i, i ∈ ws → i ∈ ws2) ∧ (∀ i, i ∈ rest → i ∈ ws2) := by
  induction rest with
  | nil =>
    intro st ws h
    exact ⟨ws, h, rfl, rfl, fun i hi => hi, fun i hi => nomatch hi⟩
  | cons a rest ih =>
    intro st ws h
    simp only [List.foldl_cons]
    have h2 : (sfArrive st a).inflight = some (a :: ws) := by
      simp [sfArrive, h]
    have h3 : (sfArrive st a).loaderRuns = st.loaderRuns := by
      simp [sfArrive, h]
    have h4 : (sfArrive st a).delivered = st.delivered := by
      simp [sfArrive, h]
    obtain ⟨ws2, g1, g2, g3, g4, g5⟩ := ih (sfArrive st a) (a :: ws) h2
    refine ⟨ws2, g1, by rw [g2, h3], by rw [g3, h4], ?_, ?_⟩
    · intro i hi
      exact g4 i (List.mem_cons_of_mem a hi)
    · intro i hi
      rcases List.mem_cons.mp hi with h | h
      · subst h
        exact g4 i (List.mem_cons_self i ws)
      · exact g5 i h

/-- All of N ≥ 1 concurrent arrivals folded from the initial state, then one
completion: one loader run, every arriver delivered the loader's value. -/
theorem sf_run_spec {α : Type} (arrivals : List Nat) (v : α)
    (h : arrivals ≠ []) :
    (sfRunConcurrent arrivals v).loaderRuns = 1
  ∧ ∀ i ∈ arrivals, (i, v) ∈ (sfRunConcurrent arrivals v).delivered := by
  obtain ⟨a, rest, rfl⟩ := List.exists_cons_of_ne_nil h
  have h1 : (sfArrive (sfInit α) a).inflight = some [a] := rfl
  obtain ⟨ws2, g1, g2, g3, g4, g5⟩ :=
    sf_foldl_arrivals rest (sfArrive (sfInit α) a) [a] h1
  have hruns : (sfArrive (sfInit α) a).loaderRuns = 1 := rfl
  have hdel : (sfArrive (sfInit α) a).delivered = [] := rfl
  constructor
  · show (sfComplete (List.foldl sfArrive (sfInit α) (a :: rest)) v).loaderRuns = 1
    simp only [List.foldl_cons]
    simp [sfComplete, g1, g2, hruns]
  · intro i hi
    show (i, v) ∈
      (sfComplete (List.foldl sfArrive (sfInit α) (a :: rest)) v).delivered
    simp only [List.foldl_cons]
    have hmem : i ∈ ws2 := by
      rcases List.mem_cons.mp hi with h | h
      · subst h
        exact g4 i (List.mem_cons_self i [])
      · exact g5 i h
    simp [sfComplete, g1, g3, hdel]
    exact hmem

/-- One run of the missing-index loader issues exactly one
`FindByUserIDAndFilters` call. -/
theorem loader_one_list_call (userID : Int) (filters : Option ListFilter)
    (sortBy sortOrder : String) (missIDs : List Int) :
    countListCalls
      (sortedSetLoaderStoreEvents userID filters sortBy sortOrder missIDs)
      = 1 := by
  simp only [sortedSetLoaderStoreEvents, countListCalls, List.countP_cons,
    List.countP_map]
  simp [Function.comp]

/-- Claim C9: for N concurrent identical list reads that miss the cache,
exactly one loader runs, every caller receives that loader's result, and one
loader run performs exactly one `FindByUserIDAndFilters` store call. -/
theorem c9_single_flight {α : Type} (arrivals : List Nat) (v : α)
    (h : arrivals ≠ []) (userID : Int) (filters : Option ListFilter)
    (sortBy sortOrder : String) (missIDs : List Int) :
    (sfRunConcurrent arrivals v).loaderRuns = 1
  ∧ (∀ i ∈ arrivals, (i, v) ∈ (sfRunConcurrent arrivals v).delivered)
  ∧ countListCalls
      (sortedSetLoaderStoreEvents userID filters sortBy sortOrder missIDs)
      = 1 :=
  ⟨(sf_run_spec arrivals v h).1, (sf_run_spec arrivals v h).2,
    loader_one_list_call userID filters sortBy sortOrder missIDs⟩

/-- Witness for C9: three concurrent identical reads. -/
theorem c9_single_flight_witness :
    (sfRunConcurrent [0, 1, 2] ([todo42], (1 : Int))).loaderRuns = 1
  ∧ (∀ i ∈ [0, 1, 2],
      ((i : Nat), ([todo42], (1 : Int))) ∈
        (sfRunConcurrent [0, 1, 2] ([todo42], (1 : Int))).delivered)
  ∧ countListCalls
      (sortedSetLoaderStoreEvents 7 none "due_date" "asc" [42]) = 1 :=
  c9_single_flight [0, 1, 2] ([todo42], (1 : Int)) (by decide) 7 none
    "due_date" "asc" [42]

/-- Claim C10: acquisition stores the constant "1" whatever the holder's
generated identifier is (the identifier is never sent to Redis); Release
deletes the lock key unconditionally with no owner check; hence if holder
A's lease expires and holder B then acquires it, A's Release deletes B's
still-active lease. -/
theorem c10_release_not_owner_checked (resource identA identB : String)
    (st0 : KVState) (hfree : st0 (fullLockKey resource) = none) :
    (tryLock (NewLock resource identA) st0).2.2 (fullLockKey resource) =
      some "1"
  ∧ (∀ (st : KVState) (l : RedisLock), l.locked = true →
       (unlock l st).1 = Except.ok ()
       ∧ (unlock l st).2.2 ("lock:" ++ l.key) = none)
  ∧ (let rA := tryLock (NewLock resource identA) st0
     let stExp := expireLease rA.2.2 resource
     let rB := tryLock (NewLock resource identB) stExp
     let rel := unlock rA.2.1 rB.2.2
     rA.1 = Except.ok true ∧ rB.1 = Except.ok true
       ∧ rB.2.1.locked = true ∧ rel.1 = Except.ok ()
       ∧ rel.2.2 (fullLockKey resource) = none) := by
  have hfree2 : st0 ("lock:" ++ BuildLockKey resource) = none := hfree
  have hfull : fullLockKey resource = "lock:" ++ BuildLockKey resource := rfl
  refine ⟨?_, ?_, ?_⟩
  · rw [hfull]
    simp [tryLock, NewLock, clientLock, setNX, hfree2]
  · intro st l hl
    constructor
    · simp [unlock, hl]
    · simp [unlock, hl, clientUnlock, kvDel]
  · refine ⟨?_, ?_, ?_, ?_, ?_⟩
    · simp [tryLock, NewLock, clientLock, setNX, hfree2]
    · simp [tryLock, NewLock, clientLock, setNX, hfree2, expireLease,
        hfull, kvDel]
    · simp [tryLock, NewLock, clientLock, setNX, hfree2, expireLease,
        hfull, kvDel]
    · simp [tryLock, NewLock, clientLock, setNX, hfree2, unlock]
    · rw [hfull]
      simp [tryLock, NewLock, clientLock, setNX, hfree2, expireLease,
        hfull, kvDel, unlock, clientUnlock]

/-- Witness for C10: the interleaving evaluated concretely on an empty
keyspace for `todo:user:7`. -/
theorem c10_release_not_owner_checked_witness :
    (tryLock (NewLock "todo:user:7" "holder-a") emptyKV).2.2
      (fullLockKey "todo:user:7") = some "1" :=
  (c10_release_not_owner_checked "todo:user:7" "holder-a" "holder-b" emptyKV
    rfl).1

end TodoDemo
